import Mathlib

/-!
Verification development for the datastreamer client
(src/stream_client.rs).  The Rust code is shallowly embedded: byte
buffers become `List Nat` (each byte accessed through `byteAt`, which
reduces modulo 256 exactly as a Rust `u8` is bounded), machine-integer
arithmetic is `Nat` with explicit `% 2 ^ 32` / `% 2 ^ 64` where the Rust
code wraps, socket reads become explicit consumption of an input byte
list, socket writes are accumulated as a list of written chunks, and
Rust panics (`expect`, out-of-range slice indexing) are modelled as
`Option.none`.
-/

namespace DataStreamer

/-- HEADER_SIZE from src/stream_client.rs: a header frame is 38 bytes. -/
def HEADER_SIZE : Nat := 38

/-- FIXED_SIZE_FILE_ENTRY from src/stream_client.rs: fixed part of a data entry. -/
def FIXED_SIZE_FILE_ENTRY : Nat := 17

/-- FIXED_SIZE_RESULT_ENTRY from src/stream_client.rs: fixed part of a result entry. -/
def FIXED_SIZE_RESULT_ENTRY : Nat := 9

/-- EntryType enum from src/stream_client.rs (NotFound = 0, Bookmark = 0xb0,
Event1 = 1, Event2 = 2); the Rust `Default` is `NotFound`. -/
inductive EntryType where
  | NotFound
  | Bookmark
  | Event1
  | Event2
deriving DecidableEq, Repr, Inhabited

/-- StreamType enum from src/stream_client.rs (Sequencer = 1). -/
inductive StreamType where
  | Sequencer
deriving DecidableEq, Repr, Inhabited

/-- PacketType enum from src/stream_client.rs. -/
inductive PacketType where
  | PtPadding
  | PtHeader
  | PtData
  | PtDataRsp
  | PtResult
deriving DecidableEq, Repr, Inhabited

/-- Command enum from src/stream_client.rs (CmdStart = 1 .. CmdBookmark = 6). -/
inductive Command where
  | CmdStart
  | CmdStop
  | CmdHeader
  | CmdStartBookmark
  | CmdEntry
  | CmdBookmark
deriving DecidableEq, Repr

/-- ClientError enum from src/stream_client.rs.  `NetworkError` drops the
inner `io::Error` payload, which no claim inspects. -/
inductive ClientError where
  | ClientNotStarted (msg : String)
  | InvalidCommand (msg : String)
  | NetworkError
  | EntryNotFound
  | BookmarkNotFound
deriving DecidableEq, Repr

/-- Embedding of `impl From<u32> for EntryType` (src/stream_client.rs:57-67):
0, 0xb0, 1, 2 map to their variants, every other code to `NotFound`. -/
def EntryType.ofU32 : Nat → EntryType
  | 0 => EntryType.NotFound
  | 0xb0 => EntryType.Bookmark
  | 1 => EntryType.Event1
  | 2 => EntryType.Event2
  | _ => EntryType.NotFound

/-- Embedding of `impl From<u64> for StreamType` (src/stream_client.rs:96-103):
1 maps to Sequencer and so does every other code. -/
def StreamType.ofU64 : Nat → StreamType
  | 1 => StreamType.Sequencer
  | _ => StreamType.Sequencer

/-- Embedding of `impl From<u8> for PacketType` (src/stream_client.rs:116-127):
0x00, 0x01, 0x02, 0xfe, 0xff map to their variants, every other byte to
`PtPadding`. -/
def PacketType.ofU8 : Nat → PacketType
  | 0x00 => PacketType.PtPadding
  | 0x01 => PacketType.PtHeader
  | 0x02 => PacketType.PtData
  | 0xfe => PacketType.PtDataRsp
  | 0xff => PacketType.PtResult
  | _ => PacketType.PtPadding

/-- Numeric value of a command on the wire (`cmd as u64`). -/
def Command.toU64 : Command → Nat
  | Command.CmdStart => 1
  | Command.CmdStop => 2
  | Command.CmdHeader => 3
  | Command.CmdStartBookmark => 4
  | Command.CmdEntry => 5
  | Command.CmdBookmark => 6

/-- Numeric value of a stream type on the wire (`stream_type as u64`). -/
def StreamType.toU64 : StreamType → Nat
  | StreamType.Sequencer => 1

/-- Byte `i` of buffer `b`.  A Rust `u8` is below 256 by construction; the
`% 256` makes the model buffer behave identically. -/
def byteAt (b : List Nat) (i : Nat) : Nat := b.getD i 0 % 256

/-- Big-endian read of `n` bytes starting at offset `off`, as performed by
`BigEndian::read_u32` / `BigEndian::read_u64` from the byteorder crate. -/
def readBytesBE (b : List Nat) (off : Nat) : Nat → Nat
  | 0 => 0
  | n + 1 => readBytesBE b off n * 256 + byteAt b (off + n)

/-- `BigEndian::read_u32(&b[off..off+4])`. -/
def readU32 (b : List Nat) (off : Nat) : Nat := readBytesBE b off 4

/-- `BigEndian::read_u64(&b[off..off+8])`. -/
def readU64 (b : List Nat) (off : Nat) : Nat := readBytesBE b off 8

/-- `u64::to_be_bytes` (8 bytes, big-endian, wraps modulo 2^64). -/
def u64ToBE (n : Nat) : List Nat :=
  [n / 2 ^ 56 % 256, n / 2 ^ 48 % 256, n / 2 ^ 40 % 256, n / 2 ^ 32 % 256,
   n / 2 ^ 24 % 256, n / 2 ^ 16 % 256, n / 2 ^ 8 % 256, n % 256]

/-- `u32::to_be_bytes` (4 bytes, big-endian, wraps modulo 2^32). -/
def u32ToBE (n : Nat) : List Nat :=
  [n / 2 ^ 24 % 256, n / 2 ^ 16 % 256, n / 2 ^ 8 % 256, n % 256]

/-- Entry struct from src/stream_client.rs. -/
structure Entry where
  packet_type : Nat
  length : Nat
  entry_type : EntryType
  number : Nat
  data : List Nat
deriving DecidableEq, Repr

/-- Rust `Default` for Entry: zeroed fields, default `EntryType`. -/
instance : Inhabited Entry := ⟨⟨0, 0, EntryType.NotFound, 0, []⟩⟩

/-- HeaderEntry struct from src/stream_client.rs. -/
structure HeaderEntry where
  packet_type : Nat
  head_length : Nat
  version : Nat
  system_id : Nat
  stream_type : StreamType
  total_length : Nat
  total_entries : Nat
deriving DecidableEq, Repr

/-- Rust `Default` for HeaderEntry: zeroed fields, default `StreamType`. -/
instance : Inhabited HeaderEntry := ⟨⟨0, 0, 0, 0, StreamType.Sequencer, 0, 0⟩⟩

/-- ResultEntry struct from src/stream_client.rs. -/
structure ResultEntry where
  packet_type : Nat
  length : Nat
  error_num : Nat
  error_str : List Nat
deriving DecidableEq, Repr

/-- Embedding of `decode_binary_to_header_entry` (src/stream_client.rs:535-560):
exactly 38 bytes required, fields read big-endian at fixed offsets. -/
def decode_binary_to_header_entry (b : List Nat) : Option HeaderEntry :=
  if b.length ≠ HEADER_SIZE then none
  else
    some { packet_type := byteAt b 0
           head_length := readU32 b 1
           version := byteAt b 5
           system_id := readU64 b 6
           stream_type := StreamType.ofU64 (readU64 b 14)
           total_length := readU64 b 22
           total_entries := readU64 b 30 }

/-- Embedding of `decode_binary_to_entry` (src/stream_client.rs:563-591).
The source checks `data.len() as u32 != length - FIXED_SIZE_FILE_ENTRY as u32`:
both sides are `u32` arithmetic, so the payload length is truncated modulo
2^32 and the subtraction wraps modulo 2^32, which the model writes out
explicitly (`length` is below 2^32 because `readU32` reads four bytes). -/
def decode_binary_to_entry (b : List Nat) : Option Entry :=
  if b.length < FIXED_SIZE_FILE_ENTRY then none
  else
    let length := readU32 b 1
    let data := b.drop 17
    if data.length % 2 ^ 32 ≠ (length + 2 ^ 32 - 17) % 2 ^ 32 then none
    else
      some { packet_type := byteAt b 0
             length := length
             entry_type := EntryType.ofU32 (readU32 b 5)
             number := readU64 b 9
             data := data }

/-- Embedding of `decode_binary_to_result_entry` (src/stream_client.rs:594-608).
The source performs NO validation: it slices `b[0]`, `b[1..5]`, `b[5..9]`
and `b[9..]` unconditionally, which in Rust panics (index out of range)
whenever the buffer holds fewer than 9 bytes; `none` models that panic.
On any buffer of at least 9 bytes it returns a `ResultEntry` without ever
comparing the declared length field against the bytes present. -/
def decode_binary_to_result_entry (b : List Nat) : Option ResultEntry :=
  if b.length < FIXED_SIZE_RESULT_ENTRY then none
  else
    some { packet_type := byteAt b 0
           length := readU32 b 1
           error_num := readU32 b 5
           error_str := b.drop 9 }

/-- Session state of `StreamClient` (src/stream_client.rs:149-161).  The live
`TcpStream` is replaced by the explicit input/write lists threaded through
the operations below; the `process_entry_hook` callback is not needed by
any command-protocol claim. -/
structure StreamClient where
  server : String
  stream_type : StreamType
  id : String
  started : Bool
  connected : Bool
  streaming : Bool
  from_stream : Nat
  total_entries : Nat
deriving DecidableEq, Repr

/-- `read_exact` on the socket: consume exactly `n` bytes of the pending
input, failing (blocking forever or erroring, both outside the claims'
scope) when fewer are available. -/
def readExact (n : Nat) (inp : List Nat) : Option (List Nat × List Nat) :=
  if n ≤ inp.length then some (inp.take n, inp.drop n) else none

/-- Embedding of `read_result_entry` (src/stream_client.rs:237-267): read the
9 fixed bytes, reject a declared length below 9, read the `length - 9`
remaining bytes, decode. -/
def read_result_entry (inp : List Nat) : Option (ResultEntry × List Nat) :=
  match readExact FIXED_SIZE_RESULT_ENTRY inp with
  | none => none
  | some (buffer, inp1) =>
    let length := readU32 buffer 1
    if length < FIXED_SIZE_RESULT_ENTRY then none
    else
      match readExact (length - FIXED_SIZE_RESULT_ENTRY) inp1 with
      | none => none
      | some (aux, inp2) =>
        match decode_binary_to_result_entry (buffer ++ aux) with
        | none => none
        | some e => some (e, inp2)

/-- Embedding of `read_header_entry` (src/stream_client.rs:270-281): read 38
bytes and decode them. -/
def read_header_entry (inp : List Nat) : Option (HeaderEntry × List Nat) :=
  match readExact HEADER_SIZE inp with
  | none => none
  | some (b, inp1) =>
    match decode_binary_to_header_entry b with
    | none => none
    | some h => some (h, inp1)

/-- Embedding of `read_data_entry` (src/stream_client.rs:297-325): read the
16 remaining fixed bytes, prepend the `PtDataRsp` byte (0xfe), reject a
declared length below 9 (the source compares against
FIXED_SIZE_RESULT_ENTRY here), read `length - 17` more bytes (a `u32`
subtraction, wrapping modulo 2^32), decode. -/
def read_data_entry (inp : List Nat) : Option (Entry × List Nat) :=
  match readExact (FIXED_SIZE_FILE_ENTRY - 1) inp with
  | none => none
  | some (b16, inp1) =>
    let buffer := 0xfe :: b16
    let length := readU32 buffer 1
    if length < FIXED_SIZE_RESULT_ENTRY then none
    else
      match readExact ((length + 2 ^ 32 - FIXED_SIZE_FILE_ENTRY) % 2 ^ 32) inp1 with
      | none => none
      | some (aux, inp2) =>
        match decode_binary_to_entry (buffer ++ aux) with
        | none => none
        | some e => some (e, inp2)

/-- Embedding of `read_bookmark_entry` (src/stream_client.rs:284-294): skip
one packet byte, then read a data entry. -/
def read_bookmark_entry (inp : List Nat) : Option (Entry × List Nat) :=
  match readExact 1 inp with
  | none => none
  | some (_, inp1) => read_data_entry inp1

/-- Request chunks written by `exec_command` before it waits for the result
(src/stream_client.rs:442-485): command id and stream type as 8-byte
big-endian integers, then the command-specific parameters. -/
def commandWrites (c : StreamClient) (cmd : Command) (from_entry : Nat)
    (from_bookmark : Option (List Nat)) : List (List Nat) :=
  let base := [u64ToBE cmd.toU64, u64ToBE c.stream_type.toU64]
  match cmd with
  | Command.CmdStart => base ++ [u64ToBE from_entry]
  | Command.CmdEntry => base ++ [u64ToBE from_entry]
  | Command.CmdStartBookmark =>
    match from_bookmark with
    | some bm => base ++ [u32ToBE bm.length, bm]
    | none => base
  | Command.CmdBookmark =>
    match from_bookmark with
    | some bm => base ++ [u32ToBE bm.length, bm]
    | none => base
  | _ => base

/-- Embedding of `exec_command` (src/stream_client.rs:421-531).  The returned
tuple carries the Rust function's `Result`, the session state after the
call, the list of chunks written to the socket, and the input bytes not
yet consumed; `none` models a panic (every `expect` on a failed read). -/
def exec_command (c : StreamClient) (cmd : Command) (from_entry : Nat)
    (from_bookmark : Option (List Nat)) (inp : List Nat) :
    Option (Except ClientError (HeaderEntry × Entry) × StreamClient × List (List Nat) × List Nat) :=
  if !c.connected then
    some (Except.error (ClientError.ClientNotStarted ("Execute command not allowed.")), c, [], inp)
  else
    let w := commandWrites c cmd from_entry from_bookmark
    match read_result_entry inp with
    | none => none
    | some (re, inp1) =>
      if re.error_num ≠ 0 then
        some (Except.error (ClientError.InvalidCommand ("TODO string the command")), c, w, inp1)
      else
        match cmd with
        | Command.CmdStart =>
          some (Except.ok (default, default),
                { c with streaming := true, from_stream := from_entry }, w, inp1)
        | Command.CmdStartBookmark =>
          some (Except.ok (default, default), { c with streaming := true }, w, inp1)
        | Command.CmdStop =>
          some (Except.ok (default, default), { c with streaming := false }, w, inp1)
        | Command.CmdHeader =>
          match read_header_entry inp1 with
          | none => none
          | some (h, inp2) => some (Except.ok (h, default), c, w, inp2)
        | Command.CmdEntry =>
          match read_data_entry inp1 with
          | none => none
          | some (e, inp2) =>
            if e.entry_type = EntryType.NotFound then
              some (Except.error ClientError.EntryNotFound, c, w, inp2)
            else some (Except.ok (default, e), c, w, inp2)
        | Command.CmdBookmark =>
          match read_bookmark_entry inp1 with
          | none => none
          | some (e, inp2) =>
            if e.entry_type = EntryType.NotFound then
              some (Except.error ClientError.BookmarkNotFound, c, w, inp2)
            else some (Except.ok (default, e), c, w, inp2)

/-- Outcome of one successful-dial iteration of `connect_server`. -/
inductive ConnectStepResult where
  | done (pending : Bool) (c : StreamClient) (writes : List (List Nat)) (rest : List Nat)
  | retry (c : StreamClient)
  | panicked
deriving DecidableEq, Repr

/-- Embedding of the body of `connect_server` once `TcpStream::connect`
succeeds (src/stream_client.rs:202-224): mark the session connected,
record the client id, and if `streaming` is set re-issue the start
command — the source calls `exec_command(Command::CmdStart, 0, None)`,
passing the literal 0 as the from-entry — returning `Ok(true)` on
success; if the resume command fails, close the connection, clear
`streaming` and go around the retry loop (`retry`); with `streaming`
unset return `Ok(false)`. -/
def connect_server_step (c : StreamClient) (clientId : String) (inp : List Nat) :
    ConnectStepResult :=
  let c1 := { c with connected := true, id := clientId }
  if c1.streaming then
    match exec_command c1 Command.CmdStart 0 none inp with
    | none => ConnectStepResult.panicked
    | some (Except.ok _, c2, w, rest) => ConnectStepResult.done true c2 w rest
    | some (Except.error _, c2, _, _) =>
      ConnectStepResult.retry { c2 with connected := false, streaming := false }
  else ConnectStepResult.done false c1 [] inp

/-! Concrete frames and sessions used by the closed theorems below. -/

/-- A well-formed OK result frame: packet 0xff, length 9, error code 0, no text. -/
def okResultFrame : List Nat := [255, 0, 0, 0, 9, 0, 0, 0, 0]

/-- A result frame rejecting the command with server error code 3
(CmdErrBadFromEntry). -/
def errResultFrame3 : List Nat := [255, 0, 0, 0, 9, 0, 0, 0, 3]

/-- A result frame rejecting the command with server error code 4
(CmdErrBadFromBookmark). -/
def errResultFrame4 : List Nat := [255, 0, 0, 0, 9, 0, 0, 0, 4]

/-- A 38-byte header frame: packet 1, head_length 38, version 0, system id 0,
stream type 1, total_length 0, total_entries 5. -/
def headerFrame5 : List Nat :=
  [1, 0, 0, 0, 38, 0, 0, 0, 0, 0, 0, 0, 0, 0, 0, 0, 0, 0, 0, 0, 0, 1,
   0, 0, 0, 0, 0, 0, 0, 0, 0, 0, 0, 0, 0, 0, 0, 5]

/-- Wire bytes of a data entry with entry type 0 (NotFound), number 7, empty
payload, as consumed by `read_data_entry` (the leading packet byte is
supplied by the reader). -/
def notFoundDataFrame : List Nat := [0, 0, 0, 17, 0, 0, 0, 0, 0, 0, 0, 0, 0, 0, 0, 7]

/-- A session that was streaming from cursor 5 and lost its connection. -/
def droppedClient : StreamClient :=
  ⟨"srv", StreamType.Sequencer, "", false, false, true, 5, 0⟩

/-- A connected session. -/
def connClient : StreamClient :=
  ⟨"srv", StreamType.Sequencer, "cli", false, true, false, 0, 0⟩

/-- C1: the session `droppedClient` had its start command acknowledged with
cursor 5 (`streaming` set, `from_stream = 5`).  When `connect_server`
reestablishes the connection and the server acknowledges the re-issued
start command, the start request written to the socket carries cursor 0
(third chunk `u64ToBE 0`), not the recorded cursor 5, and `from_stream`
is overwritten with 0 — the code restarts from 0 instead of resuming. -/
theorem connect_server_reissues_start_with_cursor_zero :
    connect_server_step droppedClient "cli" okResultFrame =
      ConnectStepResult.done true
        ⟨"srv", StreamType.Sequencer, "cli", false, true, true, 0, 0⟩
        [u64ToBE 1, u64ToBE 1, u64ToBE 0] []
    ∧ u64ToBE 0 ≠ u64ToBE 5 := by
  exact ⟨rfl, by decide⟩

/-- C2: `decode_binary_to_result_entry` performs no consistency check: on a
9-byte buffer whose declared length field is 100 (inconsistent, since
only 0 error-text bytes are present and 100 is not 9 + 0) it still
returns a `ResultEntry` built from that inconsistent buffer. -/
theorem decode_result_accepts_inconsistent_frame :
    decode_binary_to_result_entry [255, 0, 0, 0, 100, 0, 0, 0, 0] =
      some ⟨255, 100, 0, []⟩
    ∧ (100 : Nat) ≠ 9 + ([] : List Nat).length := by
  exact ⟨rfl, by decide⟩

/-- Both arms of the source's `From<u64> for StreamType` match produce
`Sequencer`, so the conversion is constant. -/
lemma streamType_ofU64_eq_sequencer (v : Nat) :
    StreamType.ofU64 v = StreamType.Sequencer := by
  unfold StreamType.ofU64
  split
  · rfl
  · rfl

/-- C6: the numeric-code conversions are total: every u32 entry-type code
other than 0, 1, 2 and 0xb0 converts to `EntryType.NotFound`; every u8
packet-type byte other than 0x00, 0x01, 0x02, 0xfe and 0xff converts to
`PacketType.PtPadding`; and every u64 stream-type code converts to
`StreamType.Sequencer`. -/
theorem code_conversions_total :
    (∀ v : Nat, v ≠ 0 → v ≠ 1 → v ≠ 2 → v ≠ 0xb0 →
      EntryType.ofU32 v = EntryType.NotFound)
    ∧ (∀ v : Nat, v ≠ 0 → v ≠ 1 → v ≠ 2 → v ≠ 0xfe → v ≠ 0xff →
      PacketType.ofU8 v = PacketType.PtPadding)
    ∧ (∀ v : Nat, StreamType.ofU64 v = StreamType.Sequencer) := by
  refine ⟨?_, ?_, ?_⟩
  · intro v h0 h1 h2 hb
    unfold EntryType.ofU32
    split <;> simp_all
  · intro v h0 h1 h2 he hf
    unfold PacketType.ofU8
    split <;> simp_all
  · exact streamType_ofU64_eq_sequencer

/-- Witness for C6: the conversions at the unknown codes 7, 7 and 7. -/
theorem code_conversions_total_witness :
    EntryType.ofU32 7 = EntryType.NotFound
    ∧ PacketType.ofU8 7 = PacketType.PtPadding
    ∧ StreamType.ofU64 7 = StreamType.Sequencer :=
  ⟨code_conversions_total.1 7 (by decide) (by decide) (by decide) (by decide),
   code_conversions_total.2.1 7 (by decide) (by decide) (by decide) (by decide) (by decide),
   code_conversions_total.2.2 7⟩

/-- C7: `decode_binary_to_header_entry` fails exactly on buffers whose length
is not 38, and on a 38-byte buffer returns the header whose fields are the
big-endian integers at the specified offsets: packet type at byte 0,
header length from bytes 1..5, version at byte 5, system id from bytes
6..14, stream type from the u64 at bytes 14..22, total length from bytes
22..30, total entries from bytes 30..38. -/
theorem decode_header_exact_layout (b : List Nat) :
    (decode_binary_to_header_entry b = none ↔ b.length ≠ 38)
    ∧ (b.length = 38 →
      decode_binary_to_header_entry b =
        some ⟨byteAt b 0,
              byteAt b 1 * 2 ^ 24 + byteAt b 2 * 2 ^ 16 + byteAt b 3 * 2 ^ 8 + byteAt b 4,
              byteAt b 5,
              byteAt b 6 * 2 ^ 56 + byteAt b 7 * 2 ^ 48 + byteAt b 8 * 2 ^ 40 +
                byteAt b 9 * 2 ^ 32 + byteAt b 10 * 2 ^ 24 + byteAt b 11 * 2 ^ 16 +
                byteAt b 12 * 2 ^ 8 + byteAt b 13,
              StreamType.ofU64 (byteAt b 14 * 2 ^ 56 + byteAt b 15 * 2 ^ 48 +
                byteAt b 16 * 2 ^ 40 + byteAt b 17 * 2 ^ 32 + byteAt b 18 * 2 ^ 24 +
                byteAt b 19 * 2 ^ 16 + byteAt b 20 * 2 ^ 8 + byteAt b 21),
              byteAt b 22 * 2 ^ 56 + byteAt b 23 * 2 ^ 48 + byteAt b 24 * 2 ^ 40 +
                byteAt b 25 * 2 ^ 32 + byteAt b 26 * 2 ^ 24 + byteAt b 27 * 2 ^ 16 +
                byteAt b 28 * 2 ^ 8 + byteAt b 29,
              byteAt b 30 * 2 ^ 56 + byteAt b 31 * 2 ^ 48 + byteAt b 32 * 2 ^ 40 +
                byteAt b 33 * 2 ^ 32 + byteAt b 34 * 2 ^ 24 + byteAt b 35 * 2 ^ 16 +
                byteAt b 36 * 2 ^ 8 + byteAt b 37⟩) := by
  constructor
  · by_cases h : b.length = 38 <;>
      simp [decode_binary_to_header_entry, HEADER_SIZE, h]
  · intro h
    simp only [decode_binary_to_header_entry, HEADER_SIZE, h, ne_eq, not_true_eq_false,
      if_false, reduceIte, Option.some.injEq]
    simp only [HeaderEntry.mk.injEq]
    refine ⟨?_, ?_, ?_, ?_, ?_, ?_, ?_⟩ <;>
      simp [readU32, readU64, readBytesBE, streamType_ofU64_eq_sequencer] <;> ring

/-- Witness for C7: decoding the concrete 38-byte header frame
`headerFrame5` through the layout theorem. -/
theorem decode_header_exact_layout_witness :
    headerFrame5.length = 38
    ∧ decode_binary_to_header_entry headerFrame5 =
        some ⟨1, 38, 0, 0, StreamType.Sequencer, 0, 5⟩ :=
  ⟨by decide, ((decode_header_exact_layout headerFrame5).2 (by decide)).trans (by decide)⟩

/-- A big-endian read of `n` bytes is below `256 ^ n`. -/
lemma readBytesBE_lt (b : List Nat) (off n : Nat) : readBytesBE b off n < 256 ^ n := by
  induction n with
  | zero => simp [readBytesBE]
  | succ k ih =>
    have hb : byteAt b (off + k) < 256 := Nat.mod_lt _ (by norm_num)
    calc readBytesBE b off (k + 1)
        = readBytesBE b off k * 256 + byteAt b (off + k) := rfl
      _ < (readBytesBE b off k + 1) * 256 := by omega
      _ ≤ 256 ^ k * 256 := Nat.mul_le_mul_right 256 ih
      _ = 256 ^ (k + 1) := by ring

/-- A `u32` read from four bytes is below 2^32. -/
lemma readU32_lt (b : List Nat) (off : Nat) : readU32 b off < 2 ^ 32 := by
  have h := readBytesBE_lt b off 4
  norm_num [readU32] at h ⊢
  omega

/-- Characterization of `decode_binary_to_entry` on buffers of at least 17
bytes: it succeeds exactly when the wrapped-`u32` length check passes. -/
lemma decode_entry_char (b : List Nat) (h : ¬ b.length < FIXED_SIZE_FILE_ENTRY) :
    decode_binary_to_entry b =
      if (b.length - 17) % 2 ^ 32 = (readU32 b 1 + 2 ^ 32 - 17) % 2 ^ 32 then
        some ⟨byteAt b 0, readU32 b 1, EntryType.ofU32 (readU32 b 5), readU64 b 9, b.drop 17⟩
      else none := by
  simp only [decode_binary_to_entry, h, if_false, List.length_drop, ne_eq, ite_not]

/-- C4 (amended): `decode_binary_to_entry` fails on buffers shorter than 17
bytes; the length check compares the payload byte count against
`declared length - 17` in wrapping `u32` arithmetic, so on success the
declared length agrees with 17 + payload modulo 2^32; for every buffer
shorter than 2^32 bytes the claim holds as stated — the decode fails
whenever the declared length differs from the full buffer length
(equivalently 17 + payload present), and a returned Entry satisfies
`length = 17 + data.length`. -/
theorem decode_entry_length_validation (b : List Nat) (e : Entry) :
    (b.length < 17 → decode_binary_to_entry b = none)
    ∧ (decode_binary_to_entry b = some e →
        e.length < 2 ^ 32 ∧ e.data.length = b.length - 17 ∧
        (b.length - 17) % 2 ^ 32 = (e.length + 2 ^ 32 - 17) % 2 ^ 32)
    ∧ (b.length < 2 ^ 32 → decode_binary_to_entry b = some e →
        e.length = 17 + e.data.length)
    ∧ (17 ≤ b.length → b.length < 2 ^ 32 → readU32 b 1 ≠ b.length →
        decode_binary_to_entry b = none) := by
  refine ⟨?_, ?_, ?_, ?_⟩
  · intro h
    simp [decode_binary_to_entry, FIXED_SIZE_FILE_ENTRY, h]
  · intro h
    by_cases h17 : b.length < FIXED_SIZE_FILE_ENTRY
    · simp [decode_binary_to_entry, h17] at h
    · rw [decode_entry_char b h17] at h
      by_cases hchk : (b.length - 17) % 2 ^ 32 = (readU32 b 1 + 2 ^ 32 - 17) % 2 ^ 32
      · rw [if_pos hchk] at h
        have hb := readU32_lt b 1
        simp only [Option.some.injEq] at h
        subst h
        exact ⟨hb, by simp, hchk⟩
      · rw [if_neg hchk] at h
        exact absurd h (by simp)
  · intro hlt h
    by_cases h17 : b.length < FIXED_SIZE_FILE_ENTRY
    · simp [decode_binary_to_entry, h17] at h
    · rw [decode_entry_char b h17] at h
      by_cases hchk : (b.length - 17) % 2 ^ 32 = (readU32 b 1 + 2 ^ 32 - 17) % 2 ^ 32
      · rw [if_pos hchk] at h
        have hb := readU32_lt b 1
        have h17le : 17 ≤ b.length := by
          simpa [FIXED_SIZE_FILE_ENTRY] using Nat.le_of_not_lt h17
        simp only [Option.some.injEq] at h
        subst h
        simp only [List.length_drop]
        have h32 : (2 : Nat) ^ 32 = 4294967296 := by norm_num
        rw [h32] at hchk hb hlt
        omega
      · rw [if_neg hchk] at h
        exact absurd h (by simp)
  · intro h17le hlt hne
    have h17 : ¬ b.length < FIXED_SIZE_FILE_ENTRY := by
      simp only [FIXED_SIZE_FILE_ENTRY]
      omega
    rw [decode_entry_char b h17]
    have hb := readU32_lt b 1
    have hchk : ¬ (b.length - 17) % 2 ^ 32 = (readU32 b 1 + 2 ^ 32 - 17) % 2 ^ 32 := by
      intro hchk
      have h32 : (2 : Nat) ^ 32 = 4294967296 := by norm_num
      rw [h32] at hchk hb hlt
      omega
    rw [if_neg hchk]

/-- Witness for C4 (amended): a 18-byte buffer whose declared length field is
30 (instead of 18) is rejected, through the validation theorem. -/
theorem decode_entry_length_validation_witness :
    decode_binary_to_entry
      [2, 0, 0, 0, 30, 0, 0, 0, 1, 0, 0, 0, 0, 0, 0, 0, 7, 42] = none :=
  (decode_entry_length_validation
      [2, 0, 0, 0, 30, 0, 0, 0, 1, 0, 0, 0, 0, 0, 0, 0, 7, 42] default).2.2.2
    (by decide) (by decide) (by decide)

/-- The 17 fixed bytes of a pathological frame: packet 2, declared length 17,
entry type 0, number 0. -/
def hugeEntryHead : List Nat := [2, 0, 0, 0, 17, 0, 0, 0, 0, 0, 0, 0, 0, 0, 0, 0, 0]

/-- A pathological 17 + 2^32 byte frame: packet 2, declared length 17,
entry type 0, number 0, followed by 2^32 payload bytes. -/
def hugeEntryFrame : List Nat := hugeEntryHead ++ List.replicate (2 ^ 32) 0

/-- C4 (counterexample): the original claim fails on `hugeEntryFrame` — its
declared length field reads 17 while 2^32 payload bytes follow byte 17,
yet `decode_binary_to_entry` succeeds because the `u32` cast truncates
the payload count to 0; the returned Entry violates
`length = 17 + data.length`. -/
theorem decode_entry_truncation_counterexample :
    decode_binary_to_entry hugeEntryFrame =
      some ⟨2, 17, EntryType.NotFound, 0, List.replicate (2 ^ 32) 0⟩
    ∧ (17 : Nat) ≠ 17 + (List.replicate (2 ^ 32) (0 : Nat)).length := by
  have hlen : hugeEntryFrame.length = 17 + 2 ^ 32 := by
    have h : hugeEntryFrame = hugeEntryHead ++ List.replicate (2 ^ 32) 0 := rfl
    rw [h, List.length_append, List.length_replicate]
    norm_num [hugeEntryHead]
  have h17 : ¬ hugeEntryFrame.length < FIXED_SIZE_FILE_ENTRY := by
    rw [hlen]
    simp [FIXED_SIZE_FILE_ENTRY]
  constructor
  · rw [decode_entry_char hugeEntryFrame h17]
    have hr1 : readU32 hugeEntryFrame 1 = 17 := rfl
    rw [hlen, hr1, if_pos (by norm_num)]
    have hdrop : hugeEntryFrame.drop 17 = List.replicate (2 ^ 32) 0 := rfl
    have hb0 : byteAt hugeEntryFrame 0 = 2 := rfl
    have hr5 : readU32 hugeEntryFrame 5 = 0 := rfl
    have hr9 : readU64 hugeEntryFrame 9 = 0 := rfl
    rw [hdrop, hb0, hr5, hr9]
    rfl
  · rw [List.length_replicate]
    norm_num

/-- C8: on a session whose `connected` flag is false, every command fails
with the not-started error, writes nothing to the socket (empty write
list), consumes no input, and leaves the whole session state unchanged. -/
theorem exec_command_requires_connected (c : StreamClient) (cmd : Command)
    (fe : Nat) (bm : Option (List Nat)) (inp : List Nat)
    (h : c.connected = false) :
    exec_command c cmd fe bm inp =
      some (Except.error (ClientError.ClientNotStarted ("Execute command not allowed.")),
            c, [], inp) := by
  simp [exec_command, h]

/-- Witness for C8: a stop command on a disconnected session. -/
theorem exec_command_requires_connected_witness :
    exec_command droppedClient Command.CmdStop 0 none [] =
      some (Except.error (ClientError.ClientNotStarted ("Execute command not allowed.")),
            droppedClient, [], []) :=
  exec_command_requires_connected droppedClient Command.CmdStop 0 none [] rfl

/-- C3 (amended): when the mandatory result entry carries a non-zero error
code, every command returns the rejection error
`InvalidCommand "TODO string the command"` — a fixed value that does not
carry the server error code — performs no further reads (the unconsumed
input is exactly what follows the result frame) and leaves the session
state unchanged. -/
theorem exec_command_rejected_result (c : StreamClient) (cmd : Command)
    (fe : Nat) (bm : Option (List Nat)) (inp : List Nat) (re : ResultEntry)
    (rest : List Nat)
    (hc : c.connected = true)
    (hre : read_result_entry inp = some (re, rest))
    (herr : re.error_num ≠ 0) :
    exec_command c cmd fe bm inp =
      some (Except.error (ClientError.InvalidCommand ("TODO string the command")),
            c, commandWrites c cmd fe bm, rest) := by
  simp [exec_command, hc, hre, herr]

/-- Witness for C3 (amended): a start command rejected with server error
code 3 on a connected session. -/
theorem exec_command_rejected_result_witness :
    exec_command connClient Command.CmdStart 1 none errResultFrame3 =
      some (Except.error (ClientError.InvalidCommand ("TODO string the command")),
            connClient, commandWrites connClient Command.CmdStart 1 none, []) :=
  exec_command_rejected_result connClient Command.CmdStart 1 none errResultFrame3
    ⟨255, 9, 3, []⟩ [] rfl rfl (by decide)

/-- C3 (counterexample): the rejection error does not carry the server error
code — a result frame with error code 3 and one with error code 4 produce
literally identical return values, so the returned error cannot encode
the code. -/
theorem rejected_error_code_not_carried :
    exec_command connClient Command.CmdStart 1 none errResultFrame3 =
      exec_command connClient Command.CmdStart 1 none errResultFrame4
    ∧ exec_command connClient Command.CmdStart 1 none errResultFrame3 =
        some (Except.error (ClientError.InvalidCommand ("TODO string the command")),
              connClient, [u64ToBE 1, u64ToBE 1, u64ToBE 1], []) := by
  exact ⟨rfl, rfl⟩

/-- C5: for a get-entry or get-bookmark command whose result code is OK, a
decoded follow-up entry of type `NotFound` is turned into the
`EntryNotFound` / `BookmarkNotFound` error, and an entry of any other
type is returned successfully. -/
theorem get_entry_get_bookmark_notfound (c : StreamClient) (fe : Nat)
    (bm : Option (List Nat)) (inp : List Nat) (re : ResultEntry) (inp1 : List Nat)
    (e : Entry) (inp2 : List Nat)
    (hc : c.connected = true)
    (hre : read_result_entry inp = some (re, inp1))
    (hok : re.error_num = 0) :
    ((read_data_entry inp1 = some (e, inp2) → e.entry_type = EntryType.NotFound →
        exec_command c Command.CmdEntry fe bm inp =
          some (Except.error ClientError.EntryNotFound, c,
                commandWrites c Command.CmdEntry fe bm, inp2))
     ∧ (read_data_entry inp1 = some (e, inp2) → e.entry_type ≠ EntryType.NotFound →
        exec_command c Command.CmdEntry fe bm inp =
          some (Except.ok (default, e), c, commandWrites c Command.CmdEntry fe bm, inp2))
     ∧ (read_bookmark_entry inp1 = some (e, inp2) → e.entry_type = EntryType.NotFound →
        exec_command c Command.CmdBookmark fe bm inp =
          some (Except.error ClientError.BookmarkNotFound, c,
                commandWrites c Command.CmdBookmark fe bm, inp2))
     ∧ (read_bookmark_entry inp1 = some (e, inp2) → e.entry_type ≠ EntryType.NotFound →
        exec_command c Command.CmdBookmark fe bm inp =
          some (Except.ok (default, e), c,
                commandWrites c Command.CmdBookmark fe bm, inp2))) := by
  refine ⟨?_, ?_, ?_, ?_⟩ <;> intro hd ht <;> simp [exec_command, hc, hre, hok, hd, ht]

/-- Witness for C5: a get-entry command whose follow-up entry has type
`NotFound` returns `EntryNotFound`. -/
theorem get_entry_get_bookmark_notfound_witness :
    exec_command connClient Command.CmdEntry 7 none (okResultFrame ++ notFoundDataFrame) =
      some (Except.error ClientError.EntryNotFound, connClient,
            commandWrites connClient Command.CmdEntry 7 none, []) :=
  (get_entry_get_bookmark_notfound connClient 7 none
      (okResultFrame ++ notFoundDataFrame) ⟨255, 9, 0, []⟩ notFoundDataFrame
      ⟨254, 17, EntryType.NotFound, 7, []⟩ [] rfl rfl rfl).1 rfl rfl

/-- C9 (amended): on a command that completes successfully, the session state
after the call is exactly: start sets `streaming := true` and records the
given cursor in `from_stream`; start-from-bookmark sets
`streaming := true`; stop sets `streaming := false`; and get-header,
get-entry and get-bookmark leave every session field unchanged (in
particular get-header does NOT cache `total_entries`; the `start`
lifecycle routine does that after the command returns). -/
theorem exec_command_success_state_update (c : StreamClient) (cmd : Command)
    (fe : Nat) (bm : Option (List Nat)) (inp : List Nat)
    (r : HeaderEntry × Entry) (c' : StreamClient) (w : List (List Nat))
    (rest : List Nat)
    (h : exec_command c cmd fe bm inp = some (Except.ok r, c', w, rest)) :
    c' = match cmd with
         | Command.CmdStart => { c with streaming := true, from_stream := fe }
         | Command.CmdStartBookmark => { c with streaming := true }
         | Command.CmdStop => { c with streaming := false }
         | Command.CmdHeader => c
         | Command.CmdEntry => c
         | Command.CmdBookmark => c := by
  cases cmd <;>
    · unfold exec_command at h
      repeat' split at h
      all_goals simp_all

/-- Witness for C9 (amended): a successful start command from cursor 3 on
`connClient` yields exactly the session with `streaming` set and
`from_stream = 3`. -/
theorem exec_command_success_state_update_witness :
    (⟨"srv", StreamType.Sequencer, "cli", false, true, true, 3, 0⟩ : StreamClient) =
      { connClient with streaming := true, from_stream := 3 } :=
  exec_command_success_state_update connClient Command.CmdStart 3 none okResultFrame
    (default, default) ⟨"srv", StreamType.Sequencer, "cli", false, true, true, 3, 0⟩
    [u64ToBE 1, u64ToBE 1, u64ToBE 3] [] rfl

/-- C9 (counterexample): a successful get-header command does not cache the
decoded header's entry count — the returned header carries
`total_entries = 5` while the session still holds `total_entries = 0`
after the call. -/
theorem get_header_not_cached_counterexample :
    exec_command connClient Command.CmdHeader 0 none (okResultFrame ++ headerFrame5) =
      some (Except.ok (⟨1, 38, 0, 0, StreamType.Sequencer, 0, 5⟩, default),
            connClient, [u64ToBE 3, u64ToBE 1], [])
    ∧ connClient.total_entries = 0
    ∧ (0 : Nat) ≠ 5 := by
  exact ⟨rfl, rfl, by decide⟩

/-- C10: whenever a command returns an error — not connected, non-zero result
code, or entry/bookmark not found — the session fields `streaming`,
`from_stream` and `total_entries` hold the same values after the call as
before it. -/
theorem exec_command_error_preserves_state (c : StreamClient) (cmd : Command)
    (fe : Nat) (bm : Option (List Nat)) (inp : List Nat) (err : ClientError)
    (c' : StreamClient) (w : List (List Nat)) (rest : List Nat)
    (h : exec_command c cmd fe bm inp = some (Except.error err, c', w, rest)) :
    c'.streaming = c.streaming ∧ c'.from_stream = c.from_stream ∧
      c'.total_entries = c.total_entries := by
  have hcc : c' = c := by
    unfold exec_command at h
    repeat' split at h
    all_goals simp_all
  rw [hcc]
  exact ⟨rfl, rfl, rfl⟩

/-- Witness for C10: the rejected start command from the C3 scenario leaves
the three fields unchanged. -/
theorem exec_command_error_preserves_state_witness :
    (⟨"srv", StreamType.Sequencer, "cli", false, true, false, 0, 0⟩ :
        StreamClient).streaming = connClient.streaming
    ∧ (⟨"srv", StreamType.Sequencer, "cli", false, true, false, 0, 0⟩ :
        StreamClient).from_stream = connClient.from_stream
    ∧ (⟨"srv", StreamType.Sequencer, "cli", false, true, false, 0, 0⟩ :
        StreamClient).total_entries = connClient.total_entries :=
  exec_command_error_preserves_state connClient Command.CmdStart 1 none errResultFrame3
    (ClientError.InvalidCommand ("TODO string the command"))
    ⟨"srv", StreamType.Sequencer, "cli", false, true, false, 0, 0⟩
    [u64ToBE 1, u64ToBE 1, u64ToBE 1] [] rfl

end DataStreamer
